import Mathlib

/-
Verification of the upload → inference → aggregation → presentation pipeline
of the MultiFruitDetection Streamlit application (src/app.py).

The script's original logic is shallowly embedded below:
  * label aggregation (`counts`, lines 148-151),
  * the image branch's rendered event sequence (`imageBranch`, lines 118-172),
  * the video branch's rendered event sequence (`videoBranch`, lines 175-224),
  * top-level control flow including the model-load try/except (`runApp`,
    lines 107-224),
  * temporary file naming (`videoTmpSuffix` / `imageTmpSuffix`, lines 125, 182-183),
  * the `@st.cache_resource`-memoized zero-argument `load_model` (lines 107-112).

External services (the YOLO detector, Streamlit's widgets, the filesystem)
are treated as opaque inputs: the detector's per-image result is a record of
class indices and an annotated BGR frame; the detector's video output
directory is a list of file names.  The observable behavior of one processing
cycle is the list of `Event`s the script emits, in order.
-/

set_option autoImplicit false

namespace FruitApp

/-- A detected class label (`model.names[int(box.cls)]` values). -/
abbrev Label := String

/-- A pixel as a triple of channel values; the detector's annotated frame is
in BGR channel order, so the triple reads (blue, green, red) there. -/
abbrev Pixel := Nat × Nat × Nat

/-- An in-memory frame: a flat sequence of pixels. -/
abbrev Frame := List Pixel

/-- `cv2.cvtColor(result_bgr, cv2.COLOR_BGR2RGB)` (line 141): swap the first
and third channel of every pixel. -/
def cvtColorBGR2RGB (img : Frame) : Frame :=
  img.map (fun p => (p.2.2, p.2.1, p.1))

/-- Aggregation (lines 148-151):
`labels = [model.names[int(box.cls)] for box in results[0].boxes]` followed by
`counts = \x7blabel: labels.count(label) for label in set(labels)\x7d`.
The dict comprehension ranges over the distinct labels (`set(labels)`) and
maps each to its occurrence count; we realize the dict as an association
list keyed by the distinct labels in first-occurrence order. -/
def counts (labels : List Label) : List (Label × Nat) :=
  labels.dedup.map (fun l => (l, labels.count l))

/-- One observable step of the script: a Streamlit render call or a
filesystem unlink, in program order. -/
inductive Event where
  /-- A `st.markdown` section header, identified by its title text. -/
  | header (title : String)
  /-- `st.image`. -/
  | image (img : Frame)
  /-- `st.info`. -/
  | info (msg : String)
  /-- `st.warning`. -/
  | warning (msg : String)
  /-- `st.error`. -/
  | error (msg : String)
  /-- `st.video`. -/
  | video (path : String)
  /-- One styled count card (the per-fruit markdown block, lines 160-168). -/
  | countCard (fruit : Label) (count : Nat)
  /-- `st.download_button(label, data=open(src), file_name, mime)`. -/
  | download (label src fileName mime : String)
  /-- `os.unlink`. -/
  | unlink (path : String)
deriving DecidableEq, Repr

/-- The inputs and detector outputs of one image-mode processing cycle:
the temporary file path the upload was written to, the original image,
and `results[0]` of `model.predict` — its box class indices and its
`.plot()` annotated frame (BGR). -/
structure ImageRun where
  img_path : String
  original_img : Frame
  boxes : List Nat
  plot : Frame
deriving DecidableEq, Repr

/-- The image branch (lines 129-172), as the sequence of events it emits:
original image, info notice, detected image (converted to RGB), then either
the count cards (one per `counts` entry, lines 150-168) or the
"No fruits detected" warning (line 170), then removal of the temp file
(line 172). -/
def imageBranch (names : Nat → Label) (r : ImageRun) : List Event :=
  let labels := r.boxes.map (fun c => names c)
  [Event.header "📷 Original Image",
   Event.image r.original_img,
   Event.info "🔍 Detecting fruits...",
   Event.header "🎯 Detected Image",
   Event.image (cvtColorBGR2RGB r.plot)] ++
  (if labels.isEmpty then
    [Event.warning "❌ No fruits detected"]
  else
    Event.header "🍎 Fruit Detection Summary" ::
      (counts labels).map (fun p => Event.countCard p.1 p.2)) ++
  [Event.unlink r.img_path]

/-- Python's `s.endswith(pat)` for a single pattern: suffix test on the
character sequences. -/
def pyEndsWith (s pat : String) : Bool :=
  pat.data.isSuffixOf s.data

/-- The recognized output-video extensions, in the order of the tuple at
line 205: `('.mp4', '.avi', '.mov', '.mkv')`. -/
def videoExtensions : List String :=
  [".mp4", ".avi", ".mov", ".mkv"]

/-- `f.endswith(('.mp4', '.avi', '.mov', '.mkv'))` (line 205): Python's
tuple form of `endswith` succeeds when any listed suffix matches. -/
def isVideoFile (f : String) : Bool :=
  videoExtensions.any (fun e => pyEndsWith f e)

/-- The comprehension at lines 203-206:
`[f for f in os.listdir(pred_dir) if f.endswith((...))]`. -/
def pred_videos (files : List String) : List String :=
  files.filter isVideoFile

/-- `os.path.join(pred_dir, pred_videos[0])` (line 209) for a relative
second component. -/
def osPathJoin (d f : String) : String :=
  d ++ "/" ++ f

/-- The inputs and detector outputs of one video-mode processing cycle:
the temporary file path the upload was written to, the detector's save
directory (`results[0].save_dir`), and the file names in that directory
(`os.listdir(pred_dir)`). -/
structure VideoRun where
  video_path : String
  save_dir : String
  dir_files : List String
deriving DecidableEq, Repr

/-- The video branch (lines 187-224), as the sequence of events it emits:
original video, info notice, then — if the detector's output directory
holds a file with a recognized video extension — the processed-video player
and the download button over the first such file, else the "not found"
warning; finally removal of the temp input file (line 224). -/
def videoBranch (r : VideoRun) : List Event :=
  [Event.header "🎥 Original Video",
   Event.video r.video_path,
   Event.info "⏳ Processing video..."] ++
  (match pred_videos r.dir_files with
   | f :: _ =>
     [Event.header "✅ Processed Video",
      Event.video (osPathJoin r.save_dir f),
      Event.download "⬇ Download Processed Video" (osPathJoin r.save_dir f)
        "detected_fruit_video.mp4" "video/mp4"]
   | [] => [Event.warning "⚠ Processed video not found"]) ++
  [Event.unlink r.video_path]

/-- `Configuration.mode`, the sidebar radio at lines 94-97. -/
inductive Mode where
  | image
  | video
deriving DecidableEq, Repr

/-- The script body from line 111 on: `try: model = load_model() except:
st.error(...); st.stop()`, then the mode branch.  `loadResult` is the
outcome of detector construction; an upload of `none` means the uploader
widget produced nothing, so the branch body does not run. -/
def runApp (names : Nat → Label) (loadResult : Except String Unit)
    (mode : Mode) (imageUpload : Option ImageRun)
    (videoUpload : Option VideoRun) : List Event :=
  match loadResult with
  | .error e => [Event.error ("❌ Could not load model: " ++ e)]
  | .ok _ =>
    match mode with
    | .image =>
      match imageUpload with
      | some r => imageBranch names r
      | none => []
    | .video =>
      match videoUpload with
      | some r => videoBranch r
      | none => []

/-- Python's `s.split('.')` on a character sequence: splits at every dot,
keeping empty pieces, and yields at least one piece. -/
def pySplitDot : List Char → List (List Char)
  | [] => [[]]
  | c :: cs =>
    match pySplitDot cs with
    | [] => [[]]
    | g :: gs => if c = '.' then [] :: g :: gs else (c :: g) :: gs

/-- `uploaded_video.name.split('.')[-1]` (line 182): the last piece of the
dot-split of the file name. -/
def pyExt (name : List Char) : List Char :=
  (pySplitDot name).getLastD []

/-- The suffix handed to `tempfile.NamedTemporaryFile` in the video branch
(line 183): `f".\x7bext\x7d"`, i.e. a dot followed by the upload's last
name component. -/
def videoTmpSuffix (name : List Char) : List Char :=
  '.' :: pyExt name

/-- The suffix handed to `tempfile.NamedTemporaryFile` in the image branch
(line 125): the constant `".jpg"`, whatever the uploaded type was. -/
def imageTmpSuffix : List Char :=
  ".jpg".data

/-- The name `NamedTemporaryFile` allocates: a fresh base (unique per call,
guaranteed by the tempfile module) followed by the requested suffix. -/
def tempFileName (base suffix : List Char) : List Char :=
  base ++ suffix

/-- The detector instance, identified by the model path it was constructed
from (`YOLO(model_path)`, line 109). -/
structure YOLOModel where
  modelPath : String
deriving DecidableEq, Repr

/-- `YOLO(path)`: construct a detector from a model path. -/
def yolo (path : String) : YOLOModel :=
  ⟨path⟩

/-- `@st.cache_resource def load_model(): return YOLO(model_path)`
(lines 107-109).  `load_model` takes no arguments, so the cache key is
constant: the cache is a single slot.  `model_path` is a free variable of
the function body, read only when the body actually runs.  Returns the
model served to the caller and the cache after the call. -/
def load_model (cache : Option YOLOModel) (model_path : String) :
    YOLOModel × Option YOLOModel :=
  match cache with
  | some m => (m, some m)
  | none => (yolo model_path, some (yolo model_path))

/-- The models served by successive `load_model()` calls threading the
cache from call to call. -/
def modelCallsAux (cache : Option YOLOModel) : List String → List YOLOModel
  | [] => []
  | p :: ps =>
    match load_model cache p with
    | (m, newCache) => m :: modelCallsAux newCache ps

/-- The models served by successive `load_model()` calls in one process,
one call per script rerun, where `paths` lists the value of the
`model_path` widget at each rerun.  The process starts with a cold cache. -/
def modelCalls (paths : List String) : List YOLOModel :=
  modelCallsAux none paths

/-- C1 helper: a label occurs in `L` exactly when `counts L` has an entry
for it. -/
theorem counts_mem_iff (L : List Label) (l : Label) :
    (∃ c, (l, c) ∈ counts L) ↔ l ∈ L := by
  simp only [counts, List.mem_map, List.mem_dedup, Prod.mk.injEq]
  constructor
  · rintro ⟨c, a, ha, rfl, -⟩
    exact ha
  · intro hl
    exact ⟨L.count l, l, hl, rfl, rfl⟩

/-- **C1.** `counts L` is an association list whose keys are exactly the
distinct labels of `L` (each key occurs once), whose value at each key is
the number of occurrences of that label in `L`, and which contains no
zero-count entry. -/
theorem counts_correct (L : List Label) :
    (∀ l : Label, (∃ c, (l, c) ∈ counts L) ↔ l ∈ L)
  ∧ (∀ l c, (l, c) ∈ counts L → c = L.count l ∧ 0 < c)
  ∧ ((counts L).map Prod.fst).Nodup := by
  refine ⟨counts_mem_iff L, ?_, ?_⟩
  · intro l c hmem
    simp only [counts, List.mem_map, List.mem_dedup] at hmem
    obtain ⟨a, ha, heq⟩ := hmem
    cases heq
    exact ⟨rfl, List.count_pos_iff.mpr ha⟩
  · have hkeys : (counts L).map Prod.fst = L.dedup := by
      simp [counts, List.map_map, Function.comp_def]
    rw [hkeys]
    exact L.nodup_dedup

/-- Witness for **C1** at a concrete detection list. -/
theorem counts_correct_witness :
    ("apple", 2) ∈ counts ["apple", "banana", "apple"]
  ∧ 2 = (["apple", "banana", "apple"] : List Label).count "apple" ∧ 0 < 2 :=
  ⟨by decide,
   (counts_correct ["apple", "banana", "apple"]).2.1 "apple" 2 (by decide)⟩

/-- **C2.** On an empty detection list the aggregation is empty, and the
image branch renders the "No fruits detected" warning and no count card. -/
theorem empty_detections (names : Nat → Label) (r : ImageRun)
    (h : r.boxes = []) :
    counts (r.boxes.map (fun c => names c)) = []
  ∧ Event.warning "❌ No fruits detected" ∈ imageBranch names r
  ∧ ∀ f c, Event.countCard f c ∉ imageBranch names r := by
  refine ⟨by simp [h, counts], ?_, ?_⟩
  · simp [imageBranch, h]
  · intro f c
    simp [imageBranch, h]

/-- Witness for **C2**: a run whose detector returned no boxes. -/
theorem empty_detections_witness :
    counts (((⟨"/tmp/up.jpg", [], [], []⟩ : ImageRun)).boxes.map
        (fun _ => "fruit")) = []
  ∧ Event.warning "❌ No fruits detected" ∈
      imageBranch (fun _ => "fruit") ⟨"/tmp/up.jpg", [], [], []⟩
  ∧ ∀ f c, Event.countCard f c ∉
      imageBranch (fun _ => "fruit") ⟨"/tmp/up.jpg", [], [], []⟩ :=
  empty_detections (fun _ => "fruit") ⟨"/tmp/up.jpg", [], [], []⟩ rfl

/-- **C5.** The fifth event of the image branch — the detected-image render
(line 145) — shows `cvtColorBGR2RGB` applied to the detector's annotated
frame; the conversion swaps the first and third channel of every pixel; and
whenever the raw BGR frame differs from its conversion, the raw frame is not
what that render shows. -/
theorem detected_image_is_converted (names : Nat → Label) (r : ImageRun) :
    ((imageBranch names r).drop 4).head? =
      some (Event.image (cvtColorBGR2RGB r.plot))
  ∧ (∀ i : Nat, (cvtColorBGR2RGB r.plot)[i]? =
      r.plot[i]?.map (fun p : Pixel => (p.2.2, p.2.1, p.1)))
  ∧ (r.plot ≠ cvtColorBGR2RGB r.plot →
      ((imageBranch names r).drop 4).head? ≠ some (Event.image r.plot)) := by
  refine ⟨rfl, ?_, ?_⟩
  · intro i
    simp [cvtColorBGR2RGB]
  · intro hne heq
    have h1 : ((imageBranch names r).drop 4).head? =
        some (Event.image (cvtColorBGR2RGB r.plot)) := rfl
    rw [h1] at heq
    injection heq with h2
    injection h2 with h3
    exact hne h3.symm

/-- Witness for **C5**: a frame with one asymmetric pixel, whose raw BGR
form is provably not what is displayed. -/
theorem detected_image_is_converted_witness :
    ((imageBranch (fun _ => "fruit")
        (⟨"/tmp/up.jpg", [], [], [(1, 2, 3)]⟩ : ImageRun)).drop 4).head? ≠
      some (Event.image (⟨"/tmp/up.jpg", [], [], [(1, 2, 3)]⟩ : ImageRun).plot) :=
  (detected_image_is_converted (fun _ => "fruit")
    ⟨"/tmp/up.jpg", [], [], [(1, 2, 3)]⟩).2.2 (by decide)

/-- **C7.** Aggregation is deterministic: it is a pure function of the
detection list, so two runs over identical lists produce identical count
mappings (as association lists, and under lookup). -/
theorem aggregation_deterministic (L₁ L₂ : List Label) (h : L₁ = L₂) :
    counts L₁ = counts L₂
  ∧ ∀ l, List.lookup l (counts L₁) = List.lookup l (counts L₂) := by
  subst h
  exact ⟨rfl, fun _ => rfl⟩

/-- Witness for **C7** at a concrete repeated run. -/
theorem aggregation_deterministic_witness :
    counts ["apple", "banana", "apple"] = counts ["apple", "banana", "apple"]
  ∧ ∀ l, List.lookup l (counts ["apple", "banana", "apple"]) =
      List.lookup l (counts ["apple", "banana", "apple"]) :=
  aggregation_deterministic ["apple", "banana", "apple"]
    ["apple", "banana", "apple"] rfl

/-- **C3.** When detector construction fails, the run consists solely of
the model-load error report: the session halts before any upload handling
or media processing, and no other event — in particular no other error —
is emitted, whatever the mode and whatever uploads would have been
available. -/
theorem model_load_failure_halts (names : Nat → Label) (e : String)
    (mode : Mode) (imageUpload : Option ImageRun)
    (videoUpload : Option VideoRun) :
    runApp names (Except.error e) mode imageUpload videoUpload =
      [Event.error ("❌ Could not load model: " ++ e)] :=
  rfl

/-- **C4.** If the detector's output directory has no file with a
recognized video extension, the video branch emits the "not found" warning,
no download event, and plays only the original upload; otherwise it plays
the first matching file and offers it for download, and emits no "not
found" warning. -/
theorem video_output_selection (r : VideoRun) :
    (pred_videos r.dir_files = [] →
        Event.warning "⚠ Processed video not found" ∈ videoBranch r
      ∧ (∀ l s n m, Event.download l s n m ∉ videoBranch r)
      ∧ (∀ p, Event.video p ∈ videoBranch r → p = r.video_path))
  ∧ (∀ f rest, pred_videos r.dir_files = f :: rest →
        Event.video (osPathJoin r.save_dir f) ∈ videoBranch r
      ∧ Event.download "⬇ Download Processed Video" (osPathJoin r.save_dir f)
          "detected_fruit_video.mp4" "video/mp4" ∈ videoBranch r
      ∧ Event.warning "⚠ Processed video not found" ∉ videoBranch r) := by
  constructor
  · intro h
    refine ⟨by simp [videoBranch, h], ?_, ?_⟩
    · intro l s n m
      simp [videoBranch, h]
    · intro p hp
      simpa [videoBranch, h] using hp
  · intro f rest h
    refine ⟨by simp [videoBranch, h], by simp [videoBranch, h],
      by simp [videoBranch, h]⟩

/-- Witness for **C4**: an output directory with no video file (warning
raised) and one with a matching `.avi` file (download offered). -/
theorem video_output_selection_witness :
    Event.warning "⚠ Processed video not found" ∈
      videoBranch ⟨"/tmp/v.mp4", "runs/detect/fruit_ui", ["labels.txt"]⟩
  ∧ Event.download "⬇ Download Processed Video"
      (osPathJoin "runs/detect/fruit_ui" "out.avi") "detected_fruit_video.mp4"
      "video/mp4" ∈
      videoBranch ⟨"/tmp/v.mp4", "runs/detect/fruit_ui", ["out.avi", "x.txt"]⟩ :=
  ⟨((video_output_selection
      ⟨"/tmp/v.mp4", "runs/detect/fruit_ui", ["labels.txt"]⟩).1
      (by decide)).1,
   ((video_output_selection
      ⟨"/tmp/v.mp4", "runs/detect/fruit_ui", ["out.avi", "x.txt"]⟩).2
      "out.avi" [] (by decide)).2.1⟩

/-- **C6.** On the normal exit path of either branch the temporary input
file is unlinked — in the image branch whether or not any detection was
found — and it is the only file either branch unlinks; in particular the
video branch's output artifact is never unlinked (when its path differs
from the temp input's). -/
theorem temp_input_cleanup (names : Nat → Label) (ri : ImageRun)
    (rv : VideoRun) :
    Event.unlink ri.img_path ∈ imageBranch names ri
  ∧ (∀ p, Event.unlink p ∈ imageBranch names ri → p = ri.img_path)
  ∧ Event.unlink rv.video_path ∈ videoBranch rv
  ∧ (∀ p, Event.unlink p ∈ videoBranch rv → p = rv.video_path)
  ∧ (∀ f rest, pred_videos rv.dir_files = f :: rest →
      osPathJoin rv.save_dir f ≠ rv.video_path →
      Event.unlink (osPathJoin rv.save_dir f) ∉ videoBranch rv) := by
  refine ⟨?_, ?_, ?_, ?_, ?_⟩
  · by_cases hc : (ri.boxes.map (fun c => names c)).isEmpty <;>
      simp [imageBranch, hc]
  · intro p hp
    by_cases hc : (ri.boxes.map (fun c => names c)).isEmpty <;>
      simpa [imageBranch, hc] using hp
  · rcases hv : pred_videos rv.dir_files with - | ⟨f, rest⟩ <;>
      simp [videoBranch, hv]
  · intro p hp
    rcases hv : pred_videos rv.dir_files with - | ⟨f, rest⟩ <;>
      simpa [videoBranch, hv] using hp
  · intro f rest h hne hp
    rw [show Event.unlink (osPathJoin rv.save_dir f) ∈ videoBranch rv ↔
        osPathJoin rv.save_dir f = rv.video_path by simp [videoBranch, h]]
      at hp
    exact hne hp

/-- Witness for **C6**: in a run with one detection the temp image is
unlinked, and the video branch does not unlink its output artifact. -/
theorem temp_input_cleanup_witness :
    Event.unlink "/tmp/up.jpg" ∈
      imageBranch (fun _ => "fruit")
        ⟨"/tmp/up.jpg", [], [0], [(1, 2, 3)]⟩
  ∧ Event.unlink (osPathJoin "runs/detect/fruit_ui" "out.avi") ∉
      videoBranch ⟨"/tmp/v.mp4", "runs/detect/fruit_ui", ["out.avi"]⟩ :=
  ⟨(temp_input_cleanup (fun _ => "fruit")
      ⟨"/tmp/up.jpg", [], [0], [(1, 2, 3)]⟩
      ⟨"/tmp/v.mp4", "runs/detect/fruit_ui", ["out.avi"]⟩).1,
   (temp_input_cleanup (fun _ => "fruit")
      ⟨"/tmp/up.jpg", [], [0], [(1, 2, 3)]⟩
      ⟨"/tmp/v.mp4", "runs/detect/fruit_ui", ["out.avi"]⟩).2.2.2.2
      "out.avi" [] (by decide) (by decide)⟩

/-- **C9.** Every download event the video branch emits carries the fixed
download filename `detected_fruit_video.mp4` and MIME type `video/mp4`,
and whenever a recognized output file exists — whatever its extension —
such a download event is emitted for it. -/
theorem download_button_constants (r : VideoRun) :
    (∀ l s n m, Event.download l s n m ∈ videoBranch r →
        l = "⬇ Download Processed Video"
      ∧ n = "detected_fruit_video.mp4" ∧ m = "video/mp4")
  ∧ (∀ f rest, pred_videos r.dir_files = f :: rest →
        Event.download "⬇ Download Processed Video" (osPathJoin r.save_dir f)
          "detected_fruit_video.mp4" "video/mp4" ∈ videoBranch r) := by
  constructor
  · intro l s n m hm
    rcases hv : pred_videos r.dir_files with - | ⟨f, rest⟩ <;>
      simp [videoBranch, hv] at hm
    exact ⟨hm.1, hm.2.2⟩
  · intro f rest h
    simp [videoBranch, h]

/-- Witness for **C9**: a `.mkv` output is still served under the `.mp4`
download name and MIME type. -/
theorem download_button_constants_witness :
    Event.download "⬇ Download Processed Video"
      (osPathJoin "runs/detect/fruit_ui2" "clip.mkv")
      "detected_fruit_video.mp4" "video/mp4" ∈
      videoBranch ⟨"/tmp/w.mkv", "runs/detect/fruit_ui2", ["clip.mkv"]⟩ :=
  (download_button_constants
    ⟨"/tmp/w.mkv", "runs/detect/fruit_ui2", ["clip.mkv"]⟩).2
    "clip.mkv" [] (by decide)

/-- C8 helper: splitting a dot-free sequence returns it whole. -/
theorem pySplitDot_no_dot (e : List Char) (h : '.' ∉ e) :
    pySplitDot e = [e] := by
  induction e with
  | nil => rfl
  | cons c cs ih =>
    have hc : c ≠ '.' := fun hx => h (hx ▸ List.mem_cons_self c cs)
    have hcs : '.' ∉ cs := fun hx => h (List.mem_cons_of_mem c hx)
    simp [pySplitDot, ih hcs, hc]

/-- C8 helper: the dot-split of `stem ++ "." ++ e` for dot-free `e` ends
with the piece `e`, after at least one earlier piece. -/
theorem pySplitDot_append_ext (stem e : List Char) (h : '.' ∉ e) :
    ∃ p : List (List Char), p ≠ [] ∧
      pySplitDot (stem ++ '.' :: e) = p ++ [e] := by
  induction stem with
  | nil =>
    refine ⟨[[]], by simp, ?_⟩
    simp [pySplitDot, pySplitDot_no_dot e h]
  | cons c cs ih =>
    obtain ⟨p, hp, hEq⟩ := ih
    cases p with
    | nil => exact absurd rfl hp
    | cons q ps =>
      by_cases hc : c = '.'
      · exact ⟨[] :: q :: ps, by simp, by simp [pySplitDot, hEq, hc]⟩
      · exact ⟨(c :: q) :: ps, by simp, by simp [pySplitDot, hEq, hc]⟩

/-- **C8.** The image branch's temporary file always gets the fixed suffix
`.jpg`; the video branch's temporary file gets `.` followed by the
upload's own extension (the last dot-separated component of its name, here
one of the accepted video extensions); and two temp files with distinct
fresh bases have distinct names. -/
theorem temp_file_naming (stem e base₁ base₂ : List Char)
    (he : '.' ∉ e)
    (_hvid : e ∈ ["mp4".data, "mov".data, "avi".data, "mkv".data])
    (hb : base₁ ≠ base₂) :
    videoTmpSuffix (stem ++ '.' :: e) = '.' :: e
  ∧ imageTmpSuffix = ".jpg".data
  ∧ tempFileName base₁ (videoTmpSuffix (stem ++ '.' :: e)) ≠
      tempFileName base₂ (videoTmpSuffix (stem ++ '.' :: e)) := by
  obtain ⟨p, hp, hEq⟩ := pySplitDot_append_ext stem e he
  have hsuffix : videoTmpSuffix (stem ++ '.' :: e) = '.' :: e := by
    simp [videoTmpSuffix, pyExt, hEq, List.getLastD_concat]
  refine ⟨hsuffix, rfl, ?_⟩
  intro hEq2
  exact hb (List.append_cancel_right hEq2)

/-- Witness for **C8**: an upload named `clip.mov` yields the temp suffix
`.mov`, and distinct fresh bases yield distinct temp names. -/
theorem temp_file_naming_witness :
    videoTmpSuffix ("clip".data ++ '.' :: "mov".data) = '.' :: "mov".data
  ∧ imageTmpSuffix = ".jpg".data
  ∧ tempFileName "/tmp/tmpabc".data
        (videoTmpSuffix ("clip".data ++ '.' :: "mov".data)) ≠
      tempFileName "/tmp/tmpxyz".data
        (videoTmpSuffix ("clip".data ++ '.' :: "mov".data)) :=
  temp_file_naming "clip".data "mov".data "/tmp/tmpabc".data "/tmp/tmpxyz".data
    (by decide) (by decide) (by decide)

/-- C10 helper: once the cache slot is filled with `m`, every later call
returns `m`, whatever paths the widget reports. -/
theorem modelCallsAux_cached (m : YOLOModel) (ps : List String) :
    modelCallsAux (some m) ps = List.replicate ps.length m := by
  induction ps with
  | nil => rfl
  | cons p ps ih => simp [modelCallsAux, load_model, ih, List.replicate_succ]

/-- **C10.** `load_model` is memoized with a constant cache key and reads
the model path as a free variable: in a process whose reruns see widget
values `p₀ :: ps`, every call returns the detector constructed from `p₀`,
the path in effect at first construction; a warm cache ignores the path
argument entirely, and a cold cache constructs from the current path. -/
theorem cached_model_ignores_path (p₀ : String) (ps : List String) :
    modelCalls (p₀ :: ps) = List.replicate (ps.length + 1) (yolo p₀)
  ∧ (∀ m p, (load_model (some m) p).1 = m)
  ∧ (∀ p, load_model none p = (yolo p, some (yolo p))) := by
  refine ⟨?_, fun m p => rfl, fun p => rfl⟩
  show modelCallsAux none (p₀ :: ps) = _
  rw [show modelCallsAux none (p₀ :: ps) =
      yolo p₀ :: modelCallsAux (some (yolo p₀)) ps from rfl,
    modelCallsAux_cached, List.replicate_succ]

end FruitApp
